import Mathlib

/-!
Shallow embedding of the Vigil liveness watchdog (src/lib.rs) and proofs
about its escalation state machine, handle operations and watcher loop.

The Rust code keeps three atomic fields (`tick_interval`, `state`,
`terminated`) in `VigilShared`.  The watcher loop body (`VigilShared::watch`)
is modelled as a pure function on that record producing one `TickOutcome`
per iteration: the updated shared record, the list of callbacks invoked
(when present in the callback set), the leveled log messages emitted, the
exit flag, and the sleep duration chosen at the bottom of the iteration.

The `Tested`/`AtRisk` arms use `compare_and_swap`, whose effect depends on
the value of `state` at the moment of the swap, which a concurrent
`notify` may have changed after the arm was selected by the load at the
top of the iteration.  `dispatchArm` therefore takes the `observed` value
(from the load) and the `cur` value (at the swap) separately; the
sequential tick `watchTick` instantiates both with the same value.
-/

namespace Vigil

/-- Alarm-level encoding from src/lib.rs: `const INIT: usize = 0`. -/
def INIT : Nat := 0

/-- Alarm-level encoding from src/lib.rs: `const LIVE: usize = 1`. -/
def LIVE : Nat := 1

/-- Alarm-level encoding from src/lib.rs: `const TEST: usize = 2`. -/
def TEST : Nat := 2

/-- Alarm-level encoding from src/lib.rs: `const RISK: usize = 3`. -/
def RISK : Nat := 3

/-- Alarm-level encoding from src/lib.rs: `const DEAD: usize = 4`. -/
def DEAD : Nat := 4

/-- The shared record `VigilShared` of src/lib.rs: three atomic fields. -/
structure VigilShared where
  tick_interval : Nat
  state : Nat
  terminated : Bool
deriving DecidableEq

/-- Which of the three optional callbacks of `VigilCallbacks` are present
(`Some` in the Rust record). -/
structure VigilCallbacks where
  missed_test_cb : Bool
  at_risk_cb : Bool
  stall_detected_cb : Bool
deriving DecidableEq

/-- Identity of a callback slot, used to record invocations. -/
inductive CallbackId where
  | missedTest
  | atRisk
  | stallDetected
deriving DecidableEq

/-- Log severity of the `info!` / `warn!` / `error!` macros. -/
inductive LogLevel where
  | info
  | warn
  | error
deriving DecidableEq

/-- Effect of `AtomicUsize::compare_and_swap(expected, new)` on a cell
holding `cur`: the cell becomes `new` exactly when it still holds
`expected`, and is left unchanged otherwise. -/
def compare_and_swap (cur expected new : Nat) : Nat :=
  if cur = expected then new else cur

/-- Result of one arm of the `match` in `VigilShared::watch`. -/
structure ArmResult where
  state : Nat
  invoked : List CallbackId
  log : LogLevel
deriving DecidableEq

/-- The `match self.state.load(..)` dispatch of `VigilShared::watch`
(src/lib.rs lines 108-140).  `observed` is the value returned by the load
that selects the arm; `cur` is the value of `state` at the moment the
arm's store or compare-and-swap acts (equal to `observed` in the absence
of a concurrent heartbeat). -/
def dispatchArm (cbs : VigilCallbacks) (observed cur : Nat) : ArmResult :=
  if observed = INIT then
    { state := cur, invoked := [], log := LogLevel.info }
  else if observed = LIVE then
    { state := TEST, invoked := [], log := LogLevel.info }
  else if observed = TEST then
    { state := compare_and_swap cur TEST RISK,
      invoked := if cbs.missed_test_cb then [CallbackId.missedTest] else [],
      log := LogLevel.warn }
  else if observed = RISK then
    { state := compare_and_swap cur RISK DEAD,
      invoked := if cbs.at_risk_cb then [CallbackId.atRisk] else [],
      log := LogLevel.error }
  else if observed = DEAD then
    { state := cur,
      invoked := if cbs.stall_detected_cb then [CallbackId.stallDetected] else [],
      log := LogLevel.error }
  else
    { state := INIT, invoked := [], log := LogLevel.warn }

/-- Everything one iteration of the watcher loop does. -/
structure TickOutcome where
  exited : Bool
  shared : VigilShared
  invoked : List CallbackId
  logs : List LogLevel
  sleep_ms : Option Nat
deriving DecidableEq

/-- One iteration of the loop in `VigilShared::watch` (src/lib.rs lines
102-144), run sequentially (no concurrent handle call between the load
and the arm's store/compare-and-swap): check `terminated` first and exit
before dispatching; otherwise dispatch on `state`, then read
`tick_interval` freshly and sleep for that many milliseconds. -/
def watchTick (cbs : VigilCallbacks) (st : VigilShared) : TickOutcome :=
  if st.terminated then
    { exited := true, shared := st, invoked := [],
      logs := [LogLevel.info], sleep_ms := none }
  else
    let r := dispatchArm cbs st.state st.state
    { exited := false,
      shared := { st with state := r.state },
      invoked := r.invoked,
      logs := [r.log],
      sleep_ms := some st.tick_interval }

/-- The shared record allocated by `Vigil::create` (src/lib.rs lines
39-43): `tick_interval = interval_ms`, `state = INIT`,
`terminated = false`.  `create` performs no validation of `interval_ms`. -/
def create (interval_ms : Nat) : VigilShared :=
  { tick_interval := interval_ms, state := INIT, terminated := false }

/-- `Vigil::notify` (src/lib.rs lines 62-64): a single relaxed store of
`LIVE` into `state`. -/
def notify (st : VigilShared) : VigilShared :=
  { st with state := LIVE }

/-- `Vigil::set_interval` (src/lib.rs lines 70-75): store `interval_ms`
into `tick_interval`, then call `notify`. -/
def set_interval (st : VigilShared) (interval_ms : Nat) : VigilShared :=
  notify { st with tick_interval := interval_ms }

/-- `impl Drop for Vigil` (src/lib.rs lines 78-82): a single relaxed
store of `true` into `terminated`; nothing else, and no join of the
watcher thread. -/
def dropHandle (st : VigilShared) : VigilShared :=
  { st with terminated := true }

/-- The shared record after `n` sequential watcher-loop iterations with no
intervening handle call. -/
def ticksFrom (cbs : VigilCallbacks) (st : VigilShared) : Nat → VigilShared
  | 0 => st
  | n + 1 => (watchTick cbs (ticksFrom cbs st n)).shared

end Vigil

namespace Vigil

theorem watchTick_not_terminated (cbs : VigilCallbacks) (st : VigilShared)
    (hterm : st.terminated = false) :
    watchTick cbs st =
      { exited := false,
        shared := { st with state := (dispatchArm cbs st.state st.state).state },
        invoked := (dispatchArm cbs st.state st.state).invoked,
        logs := [(dispatchArm cbs st.state st.state).log],
        sleep_ms := some st.tick_interval } := by
  simp [watchTick, hterm]

theorem tick_dead_fixed (cbs : VigilCallbacks) (st : VigilShared)
    (hterm : st.terminated = false) (h : st.state = DEAD) :
    (watchTick cbs st).shared = st := by
  cases st with
  | mk ti s t =>
    simp only [VigilShared.terminated] at hterm
    simp only [VigilShared.state] at h
    subst hterm
    subst h
    simp [watchTick, dispatchArm, INIT, LIVE, TEST, RISK, DEAD]

theorem tick_init_fixed (cbs : VigilCallbacks) (st : VigilShared)
    (hterm : st.terminated = false) (h : st.state = INIT) :
    (watchTick cbs st).shared = st ∧ (watchTick cbs st).invoked = [] := by
  cases st with
  | mk ti s t =>
    simp only [VigilShared.terminated] at hterm
    simp only [VigilShared.state] at h
    subst hterm
    subst h
    simp [watchTick, dispatchArm, INIT, LIVE, TEST, RISK, DEAD]

end Vigil

namespace Vigil

theorem ticksFrom_dead (cbs : VigilCallbacks) (st : VigilShared)
    (hterm : st.terminated = false) (h : st.state = DEAD) :
    ∀ n, (ticksFrom cbs st n).state = DEAD ∧ (ticksFrom cbs st n).terminated = false := by
  intro n
  induction n with
  | zero => exact ⟨h, hterm⟩
  | succ n ih =>
    show ((watchTick cbs (ticksFrom cbs st n)).shared.state = DEAD ∧
          (watchTick cbs (ticksFrom cbs st n)).shared.terminated = false)
    rw [tick_dead_fixed cbs (ticksFrom cbs st n) ih.2 ih.1]
    exact ih

end Vigil

/-- C1: starting from level Live with no heartbeat, each watcher-loop tick
advances the alarm level by exactly one edge along
Live -> Tested -> AtRisk -> Stalled, and once Stalled every further tick
without a heartbeat leaves it Stalled. -/
theorem Vigil.watch_ladder_escalation (cbs : Vigil.VigilCallbacks)
    (st : Vigil.VigilShared) (hterm : st.terminated = false) :
    (st.state = Vigil.LIVE → (Vigil.watchTick cbs st).shared.state = Vigil.TEST) ∧
    (st.state = Vigil.TEST → (Vigil.watchTick cbs st).shared.state = Vigil.RISK) ∧
    (st.state = Vigil.RISK → (Vigil.watchTick cbs st).shared.state = Vigil.DEAD) ∧
    (st.state = Vigil.DEAD → ∀ n, (Vigil.ticksFrom cbs st n).state = Vigil.DEAD) := by
  refine ⟨fun h => ?_, fun h => ?_, fun h => ?_, fun h n => (Vigil.ticksFrom_dead cbs st hterm h n).1⟩ <;>
    simp [Vigil.watchTick, hterm, h, Vigil.dispatchArm, Vigil.compare_and_swap,
      Vigil.INIT, Vigil.LIVE, Vigil.TEST, Vigil.RISK, Vigil.DEAD]

/-- Witness for C1 at the concrete record (interval 100, level Live, not
terminated) with all three callbacks present. -/
theorem Vigil.watch_ladder_escalation_witness :
    (Vigil.VigilShared.mk 100 Vigil.LIVE false).terminated = false ∧
    (((Vigil.VigilShared.mk 100 Vigil.LIVE false).state = Vigil.LIVE →
      (Vigil.watchTick ⟨true, true, true⟩ (Vigil.VigilShared.mk 100 Vigil.LIVE false)).shared.state = Vigil.TEST) ∧
    ((Vigil.VigilShared.mk 100 Vigil.LIVE false).state = Vigil.TEST →
      (Vigil.watchTick ⟨true, true, true⟩ (Vigil.VigilShared.mk 100 Vigil.LIVE false)).shared.state = Vigil.RISK) ∧
    ((Vigil.VigilShared.mk 100 Vigil.LIVE false).state = Vigil.RISK →
      (Vigil.watchTick ⟨true, true, true⟩ (Vigil.VigilShared.mk 100 Vigil.LIVE false)).shared.state = Vigil.DEAD) ∧
    ((Vigil.VigilShared.mk 100 Vigil.LIVE false).state = Vigil.DEAD →
      ∀ n, (Vigil.ticksFrom ⟨true, true, true⟩ (Vigil.VigilShared.mk 100 Vigil.LIVE false) n).state = Vigil.DEAD)) :=
  ⟨rfl, Vigil.watch_ladder_escalation ⟨true, true, true⟩ (Vigil.VigilShared.mk 100 Vigil.LIVE false) rfl⟩

/-- C2: notify sets the alarm level to Live from every prior level and
changes nothing else; when the level is already Live it leaves the shared
record completely unchanged (idempotent). -/
theorem Vigil.notify_resets_to_live (st : Vigil.VigilShared) :
    (Vigil.notify st).state = Vigil.LIVE ∧
    (Vigil.notify st).tick_interval = st.tick_interval ∧
    (Vigil.notify st).terminated = st.terminated ∧
    (st.state = Vigil.LIVE → Vigil.notify st = st) := by
  refine ⟨rfl, rfl, rfl, fun h => ?_⟩
  cases st with
  | mk ti s t =>
    simp only [Vigil.VigilShared.state] at h
    subst h
    rfl

/-- Witness for C2 at a record already at level Live and at one at level
Stalled. -/
theorem Vigil.notify_resets_to_live_witness :
    ((Vigil.notify (Vigil.VigilShared.mk 100 Vigil.LIVE false)).state = Vigil.LIVE ∧
     (Vigil.notify (Vigil.VigilShared.mk 100 Vigil.LIVE false)).tick_interval = (Vigil.VigilShared.mk 100 Vigil.LIVE false).tick_interval ∧
     (Vigil.notify (Vigil.VigilShared.mk 100 Vigil.LIVE false)).terminated = (Vigil.VigilShared.mk 100 Vigil.LIVE false).terminated ∧
     ((Vigil.VigilShared.mk 100 Vigil.LIVE false).state = Vigil.LIVE →
       Vigil.notify (Vigil.VigilShared.mk 100 Vigil.LIVE false) = Vigil.VigilShared.mk 100 Vigil.LIVE false)) ∧
    ((Vigil.notify (Vigil.VigilShared.mk 100 Vigil.DEAD false)).state = Vigil.LIVE ∧
     (Vigil.notify (Vigil.VigilShared.mk 100 Vigil.DEAD false)).tick_interval = (Vigil.VigilShared.mk 100 Vigil.DEAD false).tick_interval ∧
     (Vigil.notify (Vigil.VigilShared.mk 100 Vigil.DEAD false)).terminated = (Vigil.VigilShared.mk 100 Vigil.DEAD false).terminated ∧
     ((Vigil.VigilShared.mk 100 Vigil.DEAD false).state = Vigil.LIVE →
       Vigil.notify (Vigil.VigilShared.mk 100 Vigil.DEAD false) = Vigil.VigilShared.mk 100 Vigil.DEAD false)) :=
  ⟨Vigil.notify_resets_to_live (Vigil.VigilShared.mk 100 Vigil.LIVE false),
   Vigil.notify_resets_to_live (Vigil.VigilShared.mk 100 Vigil.DEAD false)⟩

/-- C3: in the Tested arm the transition Tested -> AtRisk is a
compare-and-set succeeding only when the level is still exactly Tested
(otherwise the level is left as the concurrent heartbeat set it), and the
onMissed callback, when present, is invoked exactly once either way; the
AtRisk arm is symmetric with AtRisk -> Stalled and onAtRisk. -/
theorem Vigil.cas_arms_fire_regardless (cbs : Vigil.VigilCallbacks) (cur : Nat) :
    ((Vigil.dispatchArm cbs Vigil.TEST cur).state =
      if cur = Vigil.TEST then Vigil.RISK else cur) ∧
    ((Vigil.dispatchArm cbs Vigil.TEST cur).invoked =
      if cbs.missed_test_cb then [Vigil.CallbackId.missedTest] else []) ∧
    ((Vigil.dispatchArm cbs Vigil.RISK cur).state =
      if cur = Vigil.RISK then Vigil.DEAD else cur) ∧
    ((Vigil.dispatchArm cbs Vigil.RISK cur).invoked =
      if cbs.at_risk_cb then [Vigil.CallbackId.atRisk] else []) := by
  refine ⟨?_, ?_, ?_, ?_⟩ <;>
    simp [Vigil.dispatchArm, Vigil.compare_and_swap,
      Vigil.INIT, Vigil.LIVE, Vigil.TEST, Vigil.RISK, Vigil.DEAD]

/-- C4: create yields alarm level Uninitialized, and every watcher-loop
tick taken in that state leaves the shared record unchanged and invokes no
callback; hence no callback fires before the first heartbeat. -/
theorem Vigil.uninitialized_ticks_no_op (cbs : Vigil.VigilCallbacks) (interval_ms : Nat) :
    (Vigil.create interval_ms).state = Vigil.INIT ∧
    (∀ n, Vigil.ticksFrom cbs (Vigil.create interval_ms) n = Vigil.create interval_ms) ∧
    (∀ n, (Vigil.watchTick cbs (Vigil.ticksFrom cbs (Vigil.create interval_ms) n)).invoked = []) := by
  have hfix : ∀ n, Vigil.ticksFrom cbs (Vigil.create interval_ms) n = Vigil.create interval_ms := by
    intro n
    induction n with
    | zero => rfl
    | succ n ih =>
      show (Vigil.watchTick cbs (Vigil.ticksFrom cbs (Vigil.create interval_ms) n)).shared =
        Vigil.create interval_ms
      rw [ih]
      exact (Vigil.tick_init_fixed cbs (Vigil.create interval_ms) rfl rfl).1
  refine ⟨rfl, hfix, fun n => ?_⟩
  rw [hfix n]
  exact (Vigil.tick_init_fixed cbs (Vigil.create interval_ms) rfl rfl).2

/-- C5: once terminated is true the watcher loop exits at the top of its
next iteration, before dispatching on the alarm level: the final iteration
invokes no callback and changes no shared state. -/
theorem Vigil.terminated_tick_exits (cbs : Vigil.VigilCallbacks) (st : Vigil.VigilShared)
    (h : st.terminated = true) :
    (Vigil.watchTick cbs st).exited = true ∧
    (Vigil.watchTick cbs st).invoked = [] ∧
    (Vigil.watchTick cbs st).shared = st ∧
    (Vigil.watchTick cbs st).sleep_ms = none := by
  simp [Vigil.watchTick, h]

/-- Witness for C5 at a terminated record sitting at level Stalled with
all callbacks present. -/
theorem Vigil.terminated_tick_exits_witness :
    (Vigil.VigilShared.mk 100 Vigil.DEAD true).terminated = true ∧
    ((Vigil.watchTick ⟨true, true, true⟩ (Vigil.VigilShared.mk 100 Vigil.DEAD true)).exited = true ∧
     (Vigil.watchTick ⟨true, true, true⟩ (Vigil.VigilShared.mk 100 Vigil.DEAD true)).invoked = [] ∧
     (Vigil.watchTick ⟨true, true, true⟩ (Vigil.VigilShared.mk 100 Vigil.DEAD true)).shared = Vigil.VigilShared.mk 100 Vigil.DEAD true ∧
     (Vigil.watchTick ⟨true, true, true⟩ (Vigil.VigilShared.mk 100 Vigil.DEAD true)).sleep_ms = none) :=
  ⟨rfl, Vigil.terminated_tick_exits ⟨true, true, true⟩ (Vigil.VigilShared.mk 100 Vigil.DEAD true) rfl⟩

/-- C6: for every ms > 0, set_interval stores ms into tick_interval and
then has exactly the effect of notify (the level becomes Live, nothing
else changes beyond the interval); the watcher loop reads the interval
freshly, so the next sleep is governed by the new value. -/
theorem Vigil.set_interval_effect (cbs : Vigil.VigilCallbacks) (st : Vigil.VigilShared)
    (ms : Nat) (hms : 0 < ms) :
    (Vigil.set_interval st ms).tick_interval = ms ∧
    Vigil.set_interval st ms = Vigil.notify { st with tick_interval := ms } ∧
    (Vigil.set_interval st ms).state = Vigil.LIVE ∧
    (Vigil.set_interval st ms).terminated = st.terminated ∧
    (st.terminated = false →
      (Vigil.watchTick cbs (Vigil.set_interval st ms)).sleep_ms = some ms) := by
  refine ⟨rfl, rfl, rfl, rfl, fun h => ?_⟩
  simp [Vigil.watchTick, Vigil.set_interval, Vigil.notify, h]

/-- Witness for C6 with ms = 250 on a live, non-terminated record. -/
theorem Vigil.set_interval_effect_witness :
    0 < 250 ∧
    ((Vigil.set_interval (Vigil.VigilShared.mk 100 Vigil.LIVE false) 250).tick_interval = 250 ∧
     Vigil.set_interval (Vigil.VigilShared.mk 100 Vigil.LIVE false) 250 =
       Vigil.notify { Vigil.VigilShared.mk 100 Vigil.LIVE false with tick_interval := 250 } ∧
     (Vigil.set_interval (Vigil.VigilShared.mk 100 Vigil.LIVE false) 250).state = Vigil.LIVE ∧
     (Vigil.set_interval (Vigil.VigilShared.mk 100 Vigil.LIVE false) 250).terminated =
       (Vigil.VigilShared.mk 100 Vigil.LIVE false).terminated ∧
     ((Vigil.VigilShared.mk 100 Vigil.LIVE false).terminated = false →
       (Vigil.watchTick ⟨true, true, true⟩
         (Vigil.set_interval (Vigil.VigilShared.mk 100 Vigil.LIVE false) 250)).sleep_ms = some 250)) :=
  ⟨by decide,
   Vigil.set_interval_effect ⟨true, true, true⟩ (Vigil.VigilShared.mk 100 Vigil.LIVE false) 250 (by decide)⟩

/-- C7: disposing the handle sets terminated to true and changes nothing
else: alarm level and tick interval are untouched, and the operation is a
plain store with no interaction with (no join of) the watcher loop. -/
theorem Vigil.drop_sets_terminated_only (st : Vigil.VigilShared) :
    (Vigil.dropHandle st).terminated = true ∧
    (Vigil.dropHandle st).state = st.state ∧
    (Vigil.dropHandle st).tick_interval = st.tick_interval ∧
    Vigil.dropHandle st = { st with terminated := true } :=
  ⟨rfl, rfl, rfl, rfl⟩

/-- C8: a watcher-loop tick that reads an alarm level outside the five
defined ladder values resets the level to Uninitialized, invokes no
callback, and returns normally (no failure is propagated: the iteration
completes and sleeps as usual). -/
theorem Vigil.out_of_range_self_heals (cbs : Vigil.VigilCallbacks)
    (st : Vigil.VigilShared) (hterm : st.terminated = false)
    (h : Vigil.DEAD < st.state) :
    (Vigil.watchTick cbs st).shared.state = Vigil.INIT ∧
    (Vigil.watchTick cbs st).invoked = [] ∧
    (Vigil.watchTick cbs st).exited = false ∧
    (Vigil.watchTick cbs st).sleep_ms = some st.tick_interval := by
  simp only [Vigil.DEAD] at h
  have h0 : ¬ st.state = 0 := by omega
  have h1 : ¬ st.state = 1 := by omega
  have h2 : ¬ st.state = 2 := by omega
  have h3 : ¬ st.state = 3 := by omega
  have h4 : ¬ st.state = 4 := by omega
  simp [Vigil.watchTick, hterm, Vigil.dispatchArm,
    Vigil.INIT, Vigil.LIVE, Vigil.TEST, Vigil.RISK, Vigil.DEAD, h0, h1, h2, h3, h4]

/-- Witness for C8 at the corrupted level 7 with all callbacks present. -/
theorem Vigil.out_of_range_self_heals_witness :
    (Vigil.VigilShared.mk 100 7 false).terminated = false ∧
    Vigil.DEAD < (Vigil.VigilShared.mk 100 7 false).state ∧
    ((Vigil.watchTick ⟨true, true, true⟩ (Vigil.VigilShared.mk 100 7 false)).shared.state = Vigil.INIT ∧
     (Vigil.watchTick ⟨true, true, true⟩ (Vigil.VigilShared.mk 100 7 false)).invoked = [] ∧
     (Vigil.watchTick ⟨true, true, true⟩ (Vigil.VigilShared.mk 100 7 false)).exited = false ∧
     (Vigil.watchTick ⟨true, true, true⟩ (Vigil.VigilShared.mk 100 7 false)).sleep_ms =
       some (Vigil.VigilShared.mk 100 7 false).tick_interval) :=
  ⟨rfl, by decide,
   Vigil.out_of_range_self_heals ⟨true, true, true⟩ (Vigil.VigilShared.mk 100 7 false) rfl (by decide)⟩

/-- C9 counterexample: at the corrupted alarm level 5 the tick logs at
warning level, not at error level as the claim states (the corrupted arm
uses the warn macro in src/lib.rs line 137). -/
theorem Vigil.corrupted_tick_logs_warning :
    (Vigil.watchTick ⟨true, true, true⟩ (Vigil.VigilShared.mk 100 5 false)).logs =
      [Vigil.LogLevel.warn] ∧
    Vigil.LogLevel.warn ≠ Vigil.LogLevel.error := by
  decide

/-- C9 amended: every non-terminated watcher-loop tick emits exactly one
leveled log message, informational for Uninitialized and Live, warning for
Tested and for corrupted (out-of-range) state, and error for AtRisk and
Stalled. -/
theorem Vigil.tick_log_levels (cbs : Vigil.VigilCallbacks) (st : Vigil.VigilShared)
    (hterm : st.terminated = false) :
    (Vigil.watchTick cbs st).logs.length = 1 ∧
    ((st.state = Vigil.INIT ∨ st.state = Vigil.LIVE) →
      (Vigil.watchTick cbs st).logs = [Vigil.LogLevel.info]) ∧
    (st.state = Vigil.TEST → (Vigil.watchTick cbs st).logs = [Vigil.LogLevel.warn]) ∧
    ((st.state = Vigil.RISK ∨ st.state = Vigil.DEAD) →
      (Vigil.watchTick cbs st).logs = [Vigil.LogLevel.error]) ∧
    (Vigil.DEAD < st.state → (Vigil.watchTick cbs st).logs = [Vigil.LogLevel.warn]) := by
  refine ⟨by simp [Vigil.watchTick, hterm], fun h => ?_, fun h => ?_, fun h => ?_, fun h => ?_⟩
  · rcases h with h | h <;>
      simp [Vigil.watchTick, hterm, h, Vigil.dispatchArm,
        Vigil.INIT, Vigil.LIVE, Vigil.TEST, Vigil.RISK, Vigil.DEAD]
  · simp [Vigil.watchTick, hterm, h, Vigil.dispatchArm,
      Vigil.INIT, Vigil.LIVE, Vigil.TEST, Vigil.RISK, Vigil.DEAD]
  · rcases h with h | h <;>
      simp [Vigil.watchTick, hterm, h, Vigil.dispatchArm,
        Vigil.INIT, Vigil.LIVE, Vigil.TEST, Vigil.RISK, Vigil.DEAD]
  · simp only [Vigil.DEAD] at h
    have h0 : ¬ st.state = 0 := by omega
    have h1 : ¬ st.state = 1 := by omega
    have h2 : ¬ st.state = 2 := by omega
    have h3 : ¬ st.state = 3 := by omega
    have h4 : ¬ st.state = 4 := by omega
    simp [Vigil.watchTick, hterm, Vigil.dispatchArm,
      Vigil.INIT, Vigil.LIVE, Vigil.TEST, Vigil.RISK, Vigil.DEAD, h0, h1, h2, h3, h4]

/-- Witness for the amended C9 at level Tested. -/
theorem Vigil.tick_log_levels_witness :
    (Vigil.VigilShared.mk 100 Vigil.TEST false).terminated = false ∧
    ((Vigil.watchTick ⟨true, true, true⟩ (Vigil.VigilShared.mk 100 Vigil.TEST false)).logs.length = 1 ∧
     (((Vigil.VigilShared.mk 100 Vigil.TEST false).state = Vigil.INIT ∨
       (Vigil.VigilShared.mk 100 Vigil.TEST false).state = Vigil.LIVE) →
       (Vigil.watchTick ⟨true, true, true⟩ (Vigil.VigilShared.mk 100 Vigil.TEST false)).logs = [Vigil.LogLevel.info]) ∧
     ((Vigil.VigilShared.mk 100 Vigil.TEST false).state = Vigil.TEST →
       (Vigil.watchTick ⟨true, true, true⟩ (Vigil.VigilShared.mk 100 Vigil.TEST false)).logs = [Vigil.LogLevel.warn]) ∧
     (((Vigil.VigilShared.mk 100 Vigil.TEST false).state = Vigil.RISK ∨
       (Vigil.VigilShared.mk 100 Vigil.TEST false).state = Vigil.DEAD) →
       (Vigil.watchTick ⟨true, true, true⟩ (Vigil.VigilShared.mk 100 Vigil.TEST false)).logs = [Vigil.LogLevel.error]) ∧
     (Vigil.DEAD < (Vigil.VigilShared.mk 100 Vigil.TEST false).state →
       (Vigil.watchTick ⟨true, true, true⟩ (Vigil.VigilShared.mk 100 Vigil.TEST false)).logs = [Vigil.LogLevel.warn])) :=
  ⟨rfl, Vigil.tick_log_levels ⟨true, true, true⟩ (Vigil.VigilShared.mk 100 Vigil.TEST false) rfl⟩

/-- C10: create and set_interval validate nothing: any interval value,
zero included, is stored exactly as given, and the watcher loop uses the
stored value directly as the next sleep duration in milliseconds. -/
theorem Vigil.no_interval_validation (cbs : Vigil.VigilCallbacks)
    (st : Vigil.VigilShared) (ms : Nat) :
    (Vigil.create ms).tick_interval = ms ∧
    (Vigil.set_interval st ms).tick_interval = ms ∧
    (st.terminated = false →
      (Vigil.watchTick cbs st).sleep_ms = some st.tick_interval) :=
  ⟨rfl, rfl, fun h => by simp [Vigil.watchTick, h]⟩

/-- Witness for C10 at the interval 0: the zero value is accepted, stored
exactly, and used as a zero-duration sleep. -/
theorem Vigil.no_interval_validation_witness :
    (Vigil.create 0).tick_interval = 0 ∧
    (Vigil.set_interval (Vigil.VigilShared.mk 100 Vigil.LIVE false) 0).tick_interval = 0 ∧
    ((Vigil.VigilShared.mk 0 Vigil.LIVE false).terminated = false →
      (Vigil.watchTick ⟨true, true, true⟩ (Vigil.VigilShared.mk 0 Vigil.LIVE false)).sleep_ms =
        some (Vigil.VigilShared.mk 0 Vigil.LIVE false).tick_interval) :=
  ⟨(Vigil.no_interval_validation ⟨true, true, true⟩ (Vigil.VigilShared.mk 0 Vigil.LIVE false) 0).1,
   (Vigil.no_interval_validation ⟨true, true, true⟩ (Vigil.VigilShared.mk 100 Vigil.LIVE false) 0).2.1,
   (Vigil.no_interval_validation ⟨true, true, true⟩ (Vigil.VigilShared.mk 0 Vigil.LIVE false) 0).2.2⟩
